import Mathlib

/-
Verification development for the StrongIndex library (strong-index.hpp),
its unit tests (tests.cpp) and the demonstration program (example.cpp).

The library provides three tiers of strongly-typed index wrappers,
`Basic`, `Incrementable` and `FullArithmetic`, each a class template
parameterized by a compile-time tag `Tag` and an underlying type `T`
(defaulting to std::size_t).  Each wrapper stores exactly one value of
the underlying type in its private member `index_`, and every operation
forwards directly to the corresponding operation of the underlying type.

Embedding conventions:
* A wrapper object is a one-field structure holding `index_ : T`.
* Member functions that mutate `*this` and return `*this` (the
  compound-assignment operators, pre-increment, pre-decrement) become
  pure functions returning the new state of the receiver; the returned
  reference and the post-call state coincide, as in the source.
* Post-increment/post-decrement return a pair
  (value returned to the caller, state of the receiver after the call).
* The friend operators taking the wrapper by value (operator+, -, *, /, %)
  copy the argument, apply the compound assignment to the copy and return
  the copy, exactly as the source does; the caller's object is not
  threaded through, which is the pass-by-value semantics of the source.
* std::size_t is modelled as `SizeT`, a natural number with every
  arithmetic operation reduced modulo 2^64, the semantics the C++
  standard prescribes for unsigned integer types.  (Division by zero is
  undefined behaviour in C++; the model follows Lean's Nat convention,
  `a / 0 = 0`, and no claim below exercises a zero divisor.)
-/

namespace StrongIndex

/-- Model of std::size_t: a 64-bit unsigned integer.  The value is kept as
a natural number; every arithmetic operation reduces modulo 2^64 exactly
where C++ unsigned arithmetic wraps. -/
structure SizeT where
  val : Nat
deriving DecidableEq

def SizeT.add (a b : SizeT) : SizeT := ⟨(a.val + b.val) % 2 ^ 64⟩

/-- Unsigned subtraction: a - b ≡ a + (2^64 - b) (mod 2^64). -/
def SizeT.sub (a b : SizeT) : SizeT := ⟨(a.val + (2 ^ 64 - b.val % 2 ^ 64)) % 2 ^ 64⟩

def SizeT.mul (a b : SizeT) : SizeT := ⟨(a.val * b.val) % 2 ^ 64⟩

/-- Unsigned division truncates toward zero; the quotient of in-range
operands is always in range, so no reduction is needed. -/
def SizeT.div (a b : SizeT) : SizeT := ⟨a.val / b.val⟩

def SizeT.mod (a b : SizeT) : SizeT := ⟨a.val % b.val⟩

instance : Add SizeT := ⟨SizeT.add⟩
instance : Sub SizeT := ⟨SizeT.sub⟩
instance : Mul SizeT := ⟨SizeT.mul⟩
instance : Div SizeT := ⟨SizeT.div⟩
instance : Mod SizeT := ⟨SizeT.mod⟩

/-- Equality of std::size_t values compares the numeric values. -/
instance SizeT.instBEq : BEq SizeT := ⟨fun a b => a.val == b.val⟩

instance (n : Nat) : OfNat SizeT n := ⟨⟨n % 2 ^ 64⟩⟩

/-- Decimal digit characters of a positive number, most significant
first; `fuel` bounds the recursion and any fuel ≥ the digit count is
enough. -/
def decimalDigits : Nat → Nat → List Char
  | 0, _ => []
  | fuel + 1, n =>
    if n = 0 then []
    else decimalDigits fuel (n / 10) ++ [Char.ofNat (48 + n % 10)]

/-- Base-10 text representation of a natural number, as the C++ stream
insertion operator prints an unsigned integer. -/
def decimalString (n : Nat) : String :=
  if n = 0 then "0" else String.mk (decimalDigits n n)

/-- Streaming a std::size_t prints its decimal representation. -/
instance : ToString SizeT := ⟨fun a => decimalString a.val⟩

/-- Tier 1 (strong-index.hpp, class Basic): stores one value of the
underlying type; constructed explicitly from that value.  `Tag` is the
phantom tag parameter. -/
structure Basic (Tag : Type) (T : Type) where
  index_ : T
deriving DecidableEq

/-- Basic::operator=(const T&): replaces the wrapped value. -/
def Basic.assign {Tag T : Type} (a : Basic Tag T) (v : T) : Basic Tag T :=
  { a with index_ := v }

/-- Basic::operator T(): explicit conversion back to the underlying type. -/
def Basic.toUnderlying {Tag T : Type} (a : Basic Tag T) : T :=
  a.index_

/-- friend operator==(const Basic&, const Basic&): a.index_ == b.index_. -/
def Basic.beq {Tag T : Type} [BEq T] (a b : Basic Tag T) : Bool :=
  a.index_ == b.index_

/-- friend operator!=(const Basic&, const Basic&): !(a == b). -/
def Basic.bne {Tag T : Type} [BEq T] (a b : Basic Tag T) : Bool :=
  !(Basic.beq a b)

/-- friend operator<<(std::ostream&, const Basic&): os << idx.index_,
i.e. the text produced is exactly the text of the wrapped value. -/
def Basic.render {Tag T : Type} [ToString T] (a : Basic Tag T) : String :=
  toString a.index_

/-- Tags used by the unit tests and the example program; compile-time
markers carrying no data. -/
structure BasicTag
deriving DecidableEq

structure IncTag
deriving DecidableEq

structure FullArTag
deriving DecidableEq

structure UserIdTag
deriving DecidableEq

structure CustomerIdTag
deriving DecidableEq

/-- Tier 2 (strong-index.hpp, class Incrementable): the source duplicates
the whole Basic interface and adds increment, decrement, and shifting by
a raw value of the underlying type. -/
structure Incrementable (Tag : Type) (T : Type) where
  index_ : T
deriving DecidableEq

/-- Incrementable::operator=(const T&). -/
def Incrementable.assign {Tag T : Type} (a : Incrementable Tag T) (v : T) :
    Incrementable Tag T :=
  { a with index_ := v }

/-- Incrementable::operator T(). -/
def Incrementable.toUnderlying {Tag T : Type} (a : Incrementable Tag T) : T :=
  a.index_

/-- friend operator==(const Incrementable&, const Incrementable&). -/
def Incrementable.beq {Tag T : Type} [BEq T] (a b : Incrementable Tag T) : Bool :=
  a.index_ == b.index_

/-- friend operator!=(const Incrementable&, const Incrementable&). -/
def Incrementable.bne {Tag T : Type} [BEq T] (a b : Incrementable Tag T) : Bool :=
  !(Incrementable.beq a b)

/-- friend operator<<(std::ostream&, const Incrementable&). -/
def Incrementable.render {Tag T : Type} [ToString T] (a : Incrementable Tag T) : String :=
  toString a.index_

/-- Incrementable::operator++(): ++index_, returns *this (modelled as the
new state of the receiver, which is also the value yielded). -/
def Incrementable.preIncrement {Tag T : Type} [Add T] [OfNat T 1]
    (a : Incrementable Tag T) : Incrementable Tag T :=
  ⟨a.index_ + 1⟩

/-- Incrementable::operator++(int): copies *this into oldValue, calls
operator++(), returns oldValue.  Result: (value returned to the caller,
state of the receiver after the call). -/
def Incrementable.postIncrement {Tag T : Type} [Add T] [OfNat T 1]
    (a : Incrementable Tag T) : Incrementable Tag T × Incrementable Tag T :=
  (a, Incrementable.preIncrement a)

/-- Incrementable::operator--(): --index_, returns *this. -/
def Incrementable.preDecrement {Tag T : Type} [Sub T] [OfNat T 1]
    (a : Incrementable Tag T) : Incrementable Tag T :=
  ⟨a.index_ - 1⟩

/-- Incrementable::operator--(int): returns the old value, receiver
decremented. -/
def Incrementable.postDecrement {Tag T : Type} [Sub T] [OfNat T 1]
    (a : Incrementable Tag T) : Incrementable Tag T × Incrementable Tag T :=
  (a, Incrementable.preDecrement a)

/-- Incrementable::operator+=(const T&): index_ += idxShift. -/
def Incrementable.addAssign {Tag T : Type} [Add T]
    (a : Incrementable Tag T) (idxShift : T) : Incrementable Tag T :=
  ⟨a.index_ + idxShift⟩

/-- Incrementable::operator-=(const T&): index_ -= idxShift. -/
def Incrementable.subAssign {Tag T : Type} [Sub T]
    (a : Incrementable Tag T) (idxShift : T) : Incrementable Tag T :=
  ⟨a.index_ - idxShift⟩

/-- friend operator+(Incrementable a, const T&): the argument is taken by
value, a += idxShift is applied to the copy and the copy is returned. -/
def Incrementable.add {Tag T : Type} [Add T]
    (a : Incrementable Tag T) (idxShift : T) : Incrementable Tag T :=
  Incrementable.addAssign a idxShift

/-- friend operator-(Incrementable a, const T&): copy, a -= idxShift,
return the copy. -/
def Incrementable.sub {Tag T : Type} [Sub T]
    (a : Incrementable Tag T) (idxShift : T) : Incrementable Tag T :=
  Incrementable.subAssign a idxShift

/-- Semantics of the call site `r = a + s`: the operand is passed by
value, so the pair (result of the call, caller's object after the call)
is (a + s, a) — the caller's object is untouched. -/
def Incrementable.addCall {Tag T : Type} [Add T]
    (a : Incrementable Tag T) (idxShift : T) :
    Incrementable Tag T × Incrementable Tag T :=
  (Incrementable.add a idxShift, a)

/-- Semantics of the call site `r = a - s`, as for `Incrementable.addCall`. -/
def Incrementable.subCall {Tag T : Type} [Sub T]
    (a : Incrementable Tag T) (idxShift : T) :
    Incrementable Tag T × Incrementable Tag T :=
  (Incrementable.sub a idxShift, a)

/-- Tier 3 (strong-index.hpp, class FullArithmetic): duplicates the whole
Incrementable interface and adds wrapper-to-wrapper addition and
subtraction and scaling by the underlying type. -/
structure FullArithmetic (Tag : Type) (T : Type) where
  index_ : T
deriving DecidableEq

/-- FullArithmetic::operator=(const T&). -/
def FullArithmetic.assign {Tag T : Type} (a : FullArithmetic Tag T) (v : T) :
    FullArithmetic Tag T :=
  { a with index_ := v }

/-- FullArithmetic::operator T(). -/
def FullArithmetic.toUnderlying {Tag T : Type} (a : FullArithmetic Tag T) : T :=
  a.index_

/-- friend operator==(const FullArithmetic&, const FullArithmetic&). -/
def FullArithmetic.beq {Tag T : Type} [BEq T] (a b : FullArithmetic Tag T) : Bool :=
  a.index_ == b.index_

/-- friend operator!=(const FullArithmetic&, const FullArithmetic&). -/
def FullArithmetic.bne {Tag T : Type} [BEq T] (a b : FullArithmetic Tag T) : Bool :=
  !(FullArithmetic.beq a b)

/-- friend operator<<(std::ostream&, const FullArithmetic&). -/
def FullArithmetic.render {Tag T : Type} [ToString T] (a : FullArithmetic Tag T) : String :=
  toString a.index_

/-- FullArithmetic::operator++(). -/
def FullArithmetic.preIncrement {Tag T : Type} [Add T] [OfNat T 1]
    (a : FullArithmetic Tag T) : FullArithmetic Tag T :=
  ⟨a.index_ + 1⟩

/-- FullArithmetic::operator++(int). -/
def FullArithmetic.postIncrement {Tag T : Type} [Add T] [OfNat T 1]
    (a : FullArithmetic Tag T) : FullArithmetic Tag T × FullArithmetic Tag T :=
  (a, FullArithmetic.preIncrement a)

/-- FullArithmetic::operator--(). -/
def FullArithmetic.preDecrement {Tag T : Type} [Sub T] [OfNat T 1]
    (a : FullArithmetic Tag T) : FullArithmetic Tag T :=
  ⟨a.index_ - 1⟩

/-- FullArithmetic::operator--(int). -/
def FullArithmetic.postDecrement {Tag T : Type} [Sub T] [OfNat T 1]
    (a : FullArithmetic Tag T) : FullArithmetic Tag T × FullArithmetic Tag T :=
  (a, FullArithmetic.preDecrement a)

/-- FullArithmetic::operator+=(const T&). -/
def FullArithmetic.addAssign {Tag T : Type} [Add T]
    (a : FullArithmetic Tag T) (idxShift : T) : FullArithmetic Tag T :=
  ⟨a.index_ + idxShift⟩

/-- FullArithmetic::operator-=(const T&). -/
def FullArithmetic.subAssign {Tag T : Type} [Sub T]
    (a : FullArithmetic Tag T) (idxShift : T) : FullArithmetic Tag T :=
  ⟨a.index_ - idxShift⟩

/-- friend operator+(FullArithmetic a, const T&): copy, +=, return copy. -/
def FullArithmetic.add {Tag T : Type} [Add T]
    (a : FullArithmetic Tag T) (idxShift : T) : FullArithmetic Tag T :=
  FullArithmetic.addAssign a idxShift

/-- friend operator-(FullArithmetic a, const T&): copy, -=, return copy. -/
def FullArithmetic.sub {Tag T : Type} [Sub T]
    (a : FullArithmetic Tag T) (idxShift : T) : FullArithmetic Tag T :=
  FullArithmetic.subAssign a idxShift

/-- FullArithmetic::operator+=(const FullArithmetic&): index_ += other.index_. -/
def FullArithmetic.addAssignWrapper {Tag T : Type} [Add T]
    (a other : FullArithmetic Tag T) : FullArithmetic Tag T :=
  ⟨a.index_ + other.index_⟩

/-- FullArithmetic::operator-=(const FullArithmetic&): index_ -= other.index_. -/
def FullArithmetic.subAssignWrapper {Tag T : Type} [Sub T]
    (a other : FullArithmetic Tag T) : FullArithmetic Tag T :=
  ⟨a.index_ - other.index_⟩

/-- friend operator+(FullArithmetic a, const FullArithmetic& b): copy,
a += b, return the copy. -/
def FullArithmetic.addWrapper {Tag T : Type} [Add T]
    (a b : FullArithmetic Tag T) : FullArithmetic Tag T :=
  FullArithmetic.addAssignWrapper a b

/-- friend operator-(FullArithmetic a, const FullArithmetic& b): copy,
a -= b, return the copy. -/
def FullArithmetic.subWrapper {Tag T : Type} [Sub T]
    (a b : FullArithmetic Tag T) : FullArithmetic Tag T :=
  FullArithmetic.subAssignWrapper a b

/-- FullArithmetic::operator*=(const T&): index_ *= idxScale. -/
def FullArithmetic.mulAssign {Tag T : Type} [Mul T]
    (a : FullArithmetic Tag T) (idxScale : T) : FullArithmetic Tag T :=
  ⟨a.index_ * idxScale⟩

/-- friend operator*(FullArithmetic a, const T&): copy, *=, return copy. -/
def FullArithmetic.mul {Tag T : Type} [Mul T]
    (a : FullArithmetic Tag T) (idxScale : T) : FullArithmetic Tag T :=
  FullArithmetic.mulAssign a idxScale

/-- friend operator*(const T&, FullArithmetic b): returns b * idxScale. -/
def FullArithmetic.mulLeft {Tag T : Type} [Mul T]
    (idxScale : T) (b : FullArithmetic Tag T) : FullArithmetic Tag T :=
  FullArithmetic.mul b idxScale

/-- FullArithmetic::operator/=(const T&): index_ /= idxDiv, forwarding to
the underlying type's division with no added check. -/
def FullArithmetic.divAssign {Tag T : Type} [Div T]
    (a : FullArithmetic Tag T) (idxDiv : T) : FullArithmetic Tag T :=
  ⟨a.index_ / idxDiv⟩

/-- friend operator/(FullArithmetic a, const T&): copy, /=, return copy. -/
def FullArithmetic.div {Tag T : Type} [Div T]
    (a : FullArithmetic Tag T) (idxDiv : T) : FullArithmetic Tag T :=
  FullArithmetic.divAssign a idxDiv

/-- FullArithmetic::operator%=(const T&): index_ %= idxDiv, forwarding to
the underlying type's modulo with no added check. -/
def FullArithmetic.modAssign {Tag T : Type} [Mod T]
    (a : FullArithmetic Tag T) (idxDiv : T) : FullArithmetic Tag T :=
  ⟨a.index_ % idxDiv⟩

/-- friend operator%(FullArithmetic a, const T&): copy, %=, return copy. -/
def FullArithmetic.mod {Tag T : Type} [Mod T]
    (a : FullArithmetic Tag T) (idxDiv : T) : FullArithmetic Tag T :=
  FullArithmetic.modAssign a idxDiv

/-- Errors thrown by std::stoull: std::invalid_argument when no digits
can be parsed, std::out_of_range when the parsed value does not fit in
unsigned long long. -/
inductive StoullError where
  | invalidArgument
  | outOfRange
deriving DecidableEq

/-- Model of std::stoull(s) in base 10 (via strtoull): skip leading
whitespace, accept one optional sign, then the longest prefix of decimal
digits.  No digits throws invalid_argument; a magnitude above 2^64 - 1
throws out_of_range; a minus sign negates in unsigned arithmetic. -/
def stoull (s : String) : Except StoullError Nat :=
  let cs := s.data.dropWhile (fun c => c.isWhitespace)
  let signed : Bool × List Char :=
    match cs with
    | '-' :: rest => (true, rest)
    | '+' :: rest => (false, rest)
    | _ => (false, cs)
  let ds := signed.2.takeWhile (fun c => c.isDigit)
  if ds.isEmpty then Except.error StoullError.invalidArgument
  else
    let v := ds.foldl (fun acc c => 10 * acc + (c.toNat - 48)) 0
    if v > 2 ^ 64 - 1 then Except.error StoullError.outOfRange
    else Except.ok (if signed.1 then (2 ^ 64 - v % 2 ^ 64) % 2 ^ 64 else v)

/-- Diagnostics the example program writes to std::cerr before returning
EXIT_FAILURE.  The constructors carry the argument number (1-based) that
the corresponding message interpolates. -/
inductive Diag where
  /-- "Exactly two arguments are required: ..." -/
  | argCount
  /-- "ERROR: Could not convert argument i to an unsigned integer." -/
  | conv (argNum : Nat)
  /-- "ERROR: Argument i was outside the range of unsigned long long." -/
  | range (argNum : Nat)
  /-- "ERROR: Argument i was larger than or equal to the DB size (100)." -/
  | bound (argNum : Nat)
  /-- "This shouldn't be happening!" (the userId != userId branch). -/
  | internal
deriving DecidableEq

/-- Observable behaviour of one run of the example program: the lookup
results printed to std::cout in order (a friend count, left, or a GPA,
right), the diagnostic written to std::cerr if any, and the exit
status. -/
structure CliResult (G : Type) where
  stdout : List (Int ⊕ G)
  stderrDiag : Option Diag
  exitCode : Nat
deriving DecidableEq

/-- Fixed table bound of the example program (example.cpp, dbSize). -/
def dbSize : Nat := 100

/-- Model of example.cpp's main.  `args` are the command-line arguments
after the program name.  The databases are filled from a process-wide
random generator, so their contents are modelled as arbitrary lookup
functions: `friendCount i` is UserDb's entry at raw index i and `gpa i`
is StudentDb's entry (its C++ type is double, abstracted here as G).
The control flow mirrors main: argument-count check, then for each of
the two arguments parse with stoull (invalid_argument and out_of_range
each reported with their own diagnostic) and reject values at or above
dbSize; then build the two tagged indices, print the two lookups, and
fail only if userId != userId (which cannot happen). -/
def runExample {G : Type} (friendCount : Nat → Int) (gpa : Nat → G)
    (args : List String) : CliResult G :=
  match args with
  | [arg1, arg2] =>
    match stoull arg1 with
    | Except.error StoullError.invalidArgument => ⟨[], some (Diag.conv 1), 1⟩
    | Except.error StoullError.outOfRange => ⟨[], some (Diag.range 1), 1⟩
    | Except.ok raw1 =>
      if raw1 ≥ dbSize then ⟨[], some (Diag.bound 1), 1⟩
      else
        match stoull arg2 with
        | Except.error StoullError.invalidArgument => ⟨[], some (Diag.conv 2), 1⟩
        | Except.error StoullError.outOfRange => ⟨[], some (Diag.range 2), 1⟩
        | Except.ok raw2 =>
          if raw2 ≥ dbSize then ⟨[], some (Diag.bound 2), 1⟩
          else
            let userId : Basic UserIdTag SizeT := Basic.mk ⟨raw1⟩
            let studentId : Basic CustomerIdTag SizeT := Basic.mk ⟨raw2⟩
            let out : List (Int ⊕ G) :=
              [Sum.inl (friendCount (Basic.toUnderlying userId).val),
               Sum.inr (gpa (Basic.toUnderlying studentId).val)]
            if Basic.bne userId userId then ⟨out, some Diag.internal, 1⟩
            else ⟨out, none, 0⟩
  | _ => ⟨[], some Diag.argCount, 1⟩

theorem SizeT.beq_eq_true_iff (a b : SizeT) : (a == b) = true ↔ a = b := by
  cases a with
  | mk av =>
    cases b with
    | mk bv =>
      show (av == bv) = true ↔ _
      simp

/-- C2 counterexample: the claim asserts (862328 − 1) / 4 == 107791, but
FullArithmetic division of 862327 by 4 yields 215581, which is not
107791 (and indeed the test applies `index *= 4` at 107792, not at
215582, so the value divided in the test is 431167, not 862327). -/
theorem c2_counterexample :
    FullArithmetic.div
        (FullArithmetic.mk (862327 : SizeT) : FullArithmetic FullArTag SizeT) 4
      = FullArithmetic.mk (215581 : SizeT) ∧
    (FullArithmetic.mk (215581 : SizeT) : FullArithmetic FullArTag SizeT)
      ≠ FullArithmetic.mk (107791 : SizeT) := by
  decide

/-- C2, amended: for a FullArithmetic wrapper starting at 107792, adding
a wrapper constructed from 107790 yields 215582 (both in the mutating
and the non-mutating form); subtracting that operand returns to 107792;
MultiplyAssign(4), applied — as the test does — to the wrapper restored
to 107792, yields 431168; and on the result minus one, 431167 % 4 == 3
and 431167 / 4 == 107791. -/
theorem c2_full_arithmetic_chain :
    FullArithmetic.addWrapper
        (FullArithmetic.mk (107792 : SizeT) : FullArithmetic FullArTag SizeT)
        (FullArithmetic.mk (107790 : SizeT))
      = FullArithmetic.mk (215582 : SizeT) ∧
    FullArithmetic.addAssignWrapper
        (FullArithmetic.mk (107792 : SizeT) : FullArithmetic FullArTag SizeT)
        (FullArithmetic.mk (107790 : SizeT))
      = FullArithmetic.mk (215582 : SizeT) ∧
    FullArithmetic.subWrapper
        (FullArithmetic.mk (215582 : SizeT) : FullArithmetic FullArTag SizeT)
        (FullArithmetic.mk (107790 : SizeT))
      = FullArithmetic.mk (107792 : SizeT) ∧
    FullArithmetic.subAssignWrapper
        (FullArithmetic.mk (215582 : SizeT) : FullArithmetic FullArTag SizeT)
        (FullArithmetic.mk (107790 : SizeT))
      = FullArithmetic.mk (107792 : SizeT) ∧
    FullArithmetic.mulAssign
        (FullArithmetic.mk (107792 : SizeT) : FullArithmetic FullArTag SizeT) 4
      = FullArithmetic.mk (431168 : SizeT) ∧
    FullArithmetic.subAssign
        (FullArithmetic.mk (431168 : SizeT) : FullArithmetic FullArTag SizeT) 1
      = FullArithmetic.mk (431167 : SizeT) ∧
    FullArithmetic.mod
        (FullArithmetic.mk (431167 : SizeT) : FullArithmetic FullArTag SizeT) 4
      = FullArithmetic.mk (3 : SizeT) ∧
    FullArithmetic.div
        (FullArithmetic.mk (431167 : SizeT) : FullArithmetic FullArTag SizeT) 4
      = FullArithmetic.mk (107791 : SizeT) := by
  decide

/-- C3: for every FullArithmetic wrapper w and divisor d of the
underlying type, Divide and Modulo and their assigning forms produce
exactly the underlying type's own division and modulo of w's wrapped
value by d — stated for an arbitrary underlying type with division and
modulo, so whatever truncation or division-by-zero behaviour that type
has is inherited unchanged, with nothing added at the wrapper level. -/
theorem c3_div_mod_transparent (Tag T : Type) [Div T] [Mod T]
    (w : FullArithmetic Tag T) (d : T) :
    FullArithmetic.divAssign w d
      = FullArithmetic.mk (FullArithmetic.toUnderlying w / d) ∧
    FullArithmetic.div w d
      = FullArithmetic.mk (FullArithmetic.toUnderlying w / d) ∧
    FullArithmetic.modAssign w d
      = FullArithmetic.mk (FullArithmetic.toUnderlying w % d) ∧
    FullArithmetic.mod w d
      = FullArithmetic.mk (FullArithmetic.toUnderlying w % d) :=
  ⟨rfl, rfl, rfl, rfl⟩

/-- Concrete instance of c3_div_mod_transparent at SizeT, wrapped value
862327 and divisor 4. -/
theorem c3_witness :
    FullArithmetic.divAssign
        (FullArithmetic.mk (862327 : SizeT) : FullArithmetic FullArTag SizeT)
        (4 : SizeT)
      = FullArithmetic.mk (FullArithmetic.toUnderlying
          (FullArithmetic.mk (862327 : SizeT) :
            FullArithmetic FullArTag SizeT) / (4 : SizeT)) ∧
    FullArithmetic.div
        (FullArithmetic.mk (862327 : SizeT) : FullArithmetic FullArTag SizeT)
        (4 : SizeT)
      = FullArithmetic.mk (FullArithmetic.toUnderlying
          (FullArithmetic.mk (862327 : SizeT) :
            FullArithmetic FullArTag SizeT) / (4 : SizeT)) ∧
    FullArithmetic.modAssign
        (FullArithmetic.mk (862327 : SizeT) : FullArithmetic FullArTag SizeT)
        (4 : SizeT)
      = FullArithmetic.mk (FullArithmetic.toUnderlying
          (FullArithmetic.mk (862327 : SizeT) :
            FullArithmetic FullArTag SizeT) % (4 : SizeT)) ∧
    FullArithmetic.mod
        (FullArithmetic.mk (862327 : SizeT) : FullArithmetic FullArTag SizeT)
        (4 : SizeT)
      = FullArithmetic.mk (FullArithmetic.toUnderlying
          (FullArithmetic.mk (862327 : SizeT) :
            FullArithmetic FullArTag SizeT) % (4 : SizeT)) :=
  c3_div_mod_transparent FullArTag SizeT
    (FullArithmetic.mk (862327 : SizeT)) (4 : SizeT)

/-- C4: on an Incrementable wrapper at 61, PreIncrement yields 62 (the
yielded value and the mutated receiver coincide); a subsequent
PostIncrement on the wrapper at 62 returns the pre-increment value 62
while leaving the wrapper at 63; PreDecrement at 63 yields 62 and
PostDecrement at 62 returns 62 leaving the wrapper at 61, the exact
mirror; and AddAssign(2) followed by SubtractAssign(3) starting at 61
yields 60. -/
theorem c4_incrementable_at_61 :
    Incrementable.preIncrement
        (Incrementable.mk (61 : SizeT) : Incrementable IncTag SizeT)
      = Incrementable.mk (62 : SizeT) ∧
    Incrementable.postIncrement
        (Incrementable.mk (62 : SizeT) : Incrementable IncTag SizeT)
      = (Incrementable.mk (62 : SizeT), Incrementable.mk (63 : SizeT)) ∧
    Incrementable.preDecrement
        (Incrementable.mk (63 : SizeT) : Incrementable IncTag SizeT)
      = Incrementable.mk (62 : SizeT) ∧
    Incrementable.postDecrement
        (Incrementable.mk (62 : SizeT) : Incrementable IncTag SizeT)
      = (Incrementable.mk (62 : SizeT), Incrementable.mk (61 : SizeT)) ∧
    Incrementable.subAssign
        (Incrementable.addAssign
          (Incrementable.mk (61 : SizeT) : Incrementable IncTag SizeT) 2) 3
      = Incrementable.mk (60 : SizeT) := by
  decide

/-- C5: for Basic wrappers a, b of the same tag over std::size_t, Equals
holds exactly when the two underlying values agree, and NotEquals is the
exact logical negation of Equals. -/
theorem c5_equals_iff (Tag : Type) (a b : Basic Tag SizeT) :
    (Basic.beq a b = true ↔ Basic.toUnderlying a = Basic.toUnderlying b) ∧
    (Basic.bne a b = true ↔ ¬ Basic.beq a b = true) := by
  constructor
  · rw [show Basic.beq a b = (a.index_ == b.index_) from rfl,
      SizeT.beq_eq_true_iff]
    exact Iff.rfl
  · simp [Basic.bne]

/-- Concrete instance of c5_equals_iff at tag BasicTag and wrapped
values 12 and 12. -/
theorem c5_witness :
    (Basic.beq (Basic.mk (12 : SizeT) : Basic BasicTag SizeT)
        (Basic.mk (12 : SizeT)) = true ↔
      Basic.toUnderlying (Basic.mk (12 : SizeT) : Basic BasicTag SizeT)
        = Basic.toUnderlying (Basic.mk (12 : SizeT) : Basic BasicTag SizeT)) ∧
    (Basic.bne (Basic.mk (12 : SizeT) : Basic BasicTag SizeT)
        (Basic.mk (12 : SizeT)) = true ↔
      ¬ Basic.beq (Basic.mk (12 : SizeT) : Basic BasicTag SizeT)
          (Basic.mk (12 : SizeT)) = true) :=
  c5_equals_iff BasicTag (Basic.mk (12 : SizeT)) (Basic.mk (12 : SizeT))

/-- C6: constructing a wrapper of any tier from an underlying value v
and converting it back yields v, for every tag and every underlying
type. -/
theorem c6_round_trip (Tag T : Type) (v : T) :
    Basic.toUnderlying (Basic.mk v : Basic Tag T) = v ∧
    Incrementable.toUnderlying (Incrementable.mk v : Incrementable Tag T) = v ∧
    FullArithmetic.toUnderlying (FullArithmetic.mk v : FullArithmetic Tag T) = v :=
  ⟨rfl, rfl, rfl⟩

/-- Concrete instance of c6_round_trip at tag BasicTag, underlying type
SizeT and value 12. -/
theorem c6_witness :
    Basic.toUnderlying (Basic.mk (12 : SizeT) : Basic BasicTag SizeT)
      = (12 : SizeT) ∧
    Incrementable.toUnderlying
        (Incrementable.mk (12 : SizeT) : Incrementable BasicTag SizeT)
      = (12 : SizeT) ∧
    FullArithmetic.toUnderlying
        (FullArithmetic.mk (12 : SizeT) : FullArithmetic BasicTag SizeT)
      = (12 : SizeT) :=
  c6_round_trip BasicTag SizeT (12 : SizeT)

/-- C7: streaming a wrapper constructed from v produces exactly the
base-10 text of v, and in particular a wrapper built from 12 renders as
the string of the characters 1 and 2. -/
theorem c7_render_decimal (Tag : Type) (v : SizeT) :
    Basic.render (Basic.mk v : Basic Tag SizeT) = decimalString v.val ∧
    Basic.render (Basic.mk (12 : SizeT) : Basic BasicTag SizeT) = "12" :=
  ⟨rfl, by decide⟩

/-- Concrete instance of c7_render_decimal at tag BasicTag and value
107792. -/
theorem c7_witness :
    Basic.render (Basic.mk (107792 : SizeT) : Basic BasicTag SizeT)
      = decimalString (107792 : SizeT).val ∧
    Basic.render (Basic.mk (12 : SizeT) : Basic BasicTag SizeT) = "12" :=
  c7_render_decimal BasicTag (107792 : SizeT)

/-- C8: calling the non-mutating Add or Subtract with shift s returns a
new wrapper holding the caller's value shifted by s, and the caller's
wrapper after the call is exactly the wrapper before the call (the
operand is passed by value, so the original is never written). -/
theorem c8_nonmutating_shift (Tag T : Type) [Add T] [Sub T]
    (w : Incrementable Tag T) (s : T) :
    Incrementable.addCall w s
      = (Incrementable.mk (Incrementable.toUnderlying w + s), w) ∧
    Incrementable.subCall w s
      = (Incrementable.mk (Incrementable.toUnderlying w - s), w) :=
  ⟨rfl, rfl⟩

/-- Concrete instance of c8_nonmutating_shift at SizeT, wrapper value 61
and shift 3. -/
theorem c8_witness :
    Incrementable.addCall
        (Incrementable.mk (61 : SizeT) : Incrementable IncTag SizeT) (3 : SizeT)
      = (Incrementable.mk (Incrementable.toUnderlying
            (Incrementable.mk (61 : SizeT) : Incrementable IncTag SizeT)
            + (3 : SizeT)),
         Incrementable.mk (61 : SizeT)) ∧
    Incrementable.subCall
        (Incrementable.mk (61 : SizeT) : Incrementable IncTag SizeT) (3 : SizeT)
      = (Incrementable.mk (Incrementable.toUnderlying
            (Incrementable.mk (61 : SizeT) : Incrementable IncTag SizeT)
            - (3 : SizeT)),
         Incrementable.mk (61 : SizeT)) :=
  c8_nonmutating_shift IncTag SizeT (Incrementable.mk (61 : SizeT)) (3 : SizeT)

/-- C9: with table bound 100 and arbitrary database contents, arguments
"100" "5" produce the bound-exceeded diagnostic for argument 1 and exit
status 1; arguments "abc" "5" produce the conversion diagnostic for
argument 1 and exit status 1; arguments "5" "10" print the two lookup
results (friend count at 5, GPA at 10) and exit with status 0. -/
theorem c9_cli_scenarios (G : Type) (friendCount : Nat → Int) (gpa : Nat → G) :
    runExample friendCount gpa ["100", "5"] = ⟨[], some (Diag.bound 1), 1⟩ ∧
    runExample friendCount gpa ["abc", "5"] = ⟨[], some (Diag.conv 1), 1⟩ ∧
    runExample friendCount gpa ["5", "10"]
      = ⟨[Sum.inl (friendCount 5), Sum.inr (gpa 10)], none, 0⟩ :=
  ⟨rfl, rfl, rfl⟩

/-- Concrete instance of c9_cli_scenarios with G = Nat, the friend-count
table constantly 7 and the GPA table constantly 4. -/
theorem c9_witness :
    runExample (fun _ => (7 : Int)) (fun _ => (4 : Nat)) ["100", "5"]
      = ⟨[], some (Diag.bound 1), 1⟩ ∧
    runExample (fun _ => (7 : Int)) (fun _ => (4 : Nat)) ["abc", "5"]
      = ⟨[], some (Diag.conv 1), 1⟩ ∧
    runExample (fun _ => (7 : Int)) (fun _ => (4 : Nat)) ["5", "10"]
      = ⟨[Sum.inl ((fun _ => (7 : Int)) 5), Sum.inr ((fun _ => (4 : Nat)) 10)],
         none, 0⟩ :=
  c9_cli_scenarios Nat (fun _ => (7 : Int)) (fun _ => (4 : Nat))

/-- C10: on the Basic subset that Incrementable and FullArithmetic
duplicate — construction from v then conversion back, assignment from an
underlying value, equality and inequality of same-type wrappers, and
stream rendering — the three tiers agree observably, for every
underlying type with equality and rendering. -/
theorem c10_tiers_agree (Tag T : Type) [BEq T] [ToString T] (v w : T) :
    (Incrementable.toUnderlying (Incrementable.mk v : Incrementable Tag T)
        = Basic.toUnderlying (Basic.mk v : Basic Tag T) ∧
      FullArithmetic.toUnderlying (FullArithmetic.mk v : FullArithmetic Tag T)
        = Basic.toUnderlying (Basic.mk v : Basic Tag T)) ∧
    (Incrementable.toUnderlying
          (Incrementable.assign (Incrementable.mk v : Incrementable Tag T) w)
        = Basic.toUnderlying (Basic.assign (Basic.mk v : Basic Tag T) w) ∧
      FullArithmetic.toUnderlying
          (FullArithmetic.assign (FullArithmetic.mk v : FullArithmetic Tag T) w)
        = Basic.toUnderlying (Basic.assign (Basic.mk v : Basic Tag T) w)) ∧
    (Incrementable.beq (Incrementable.mk v : Incrementable Tag T)
          (Incrementable.mk w)
        = Basic.beq (Basic.mk v : Basic Tag T) (Basic.mk w) ∧
      FullArithmetic.beq (FullArithmetic.mk v : FullArithmetic Tag T)
          (FullArithmetic.mk w)
        = Basic.beq (Basic.mk v : Basic Tag T) (Basic.mk w)) ∧
    (Incrementable.bne (Incrementable.mk v : Incrementable Tag T)
          (Incrementable.mk w)
        = Basic.bne (Basic.mk v : Basic Tag T) (Basic.mk w) ∧
      FullArithmetic.bne (FullArithmetic.mk v : FullArithmetic Tag T)
          (FullArithmetic.mk w)
        = Basic.bne (Basic.mk v : Basic Tag T) (Basic.mk w)) ∧
    (Incrementable.render (Incrementable.mk v : Incrementable Tag T)
        = Basic.render (Basic.mk v : Basic Tag T) ∧
      FullArithmetic.render (FullArithmetic.mk v : FullArithmetic Tag T)
        = Basic.render (Basic.mk v : Basic Tag T)) :=
  ⟨⟨rfl, rfl⟩, ⟨rfl, rfl⟩, ⟨rfl, rfl⟩, ⟨rfl, rfl⟩, ⟨rfl, rfl⟩⟩

/-- Concrete instance of c10_tiers_agree at tag BasicTag, underlying
type SizeT, values 61 and 62. -/
theorem c10_witness :
    (Incrementable.toUnderlying
          (Incrementable.mk (61 : SizeT) : Incrementable BasicTag SizeT)
        = Basic.toUnderlying (Basic.mk (61 : SizeT) : Basic BasicTag SizeT) ∧
      FullArithmetic.toUnderlying
          (FullArithmetic.mk (61 : SizeT) : FullArithmetic BasicTag SizeT)
        = Basic.toUnderlying (Basic.mk (61 : SizeT) : Basic BasicTag SizeT)) ∧
    (Incrementable.toUnderlying
          (Incrementable.assign
            (Incrementable.mk (61 : SizeT) : Incrementable BasicTag SizeT)
            (62 : SizeT))
        = Basic.toUnderlying
            (Basic.assign (Basic.mk (61 : SizeT) : Basic BasicTag SizeT)
              (62 : SizeT)) ∧
      FullArithmetic.toUnderlying
          (FullArithmetic.assign
            (FullArithmetic.mk (61 : SizeT) : FullArithmetic BasicTag SizeT)
            (62 : SizeT))
        = Basic.toUnderlying
            (Basic.assign (Basic.mk (61 : SizeT) : Basic BasicTag SizeT)
              (62 : SizeT))) ∧
    (Incrementable.beq
          (Incrementable.mk (61 : SizeT) : Incrementable BasicTag SizeT)
          (Incrementable.mk (62 : SizeT))
        = Basic.beq (Basic.mk (61 : SizeT) : Basic BasicTag SizeT)
            (Basic.mk (62 : SizeT)) ∧
      FullArithmetic.beq
          (FullArithmetic.mk (61 : SizeT) : FullArithmetic BasicTag SizeT)
          (FullArithmetic.mk (62 : SizeT))
        = Basic.beq (Basic.mk (61 : SizeT) : Basic BasicTag SizeT)
            (Basic.mk (62 : SizeT))) ∧
    (Incrementable.bne
          (Incrementable.mk (61 : SizeT) : Incrementable BasicTag SizeT)
          (Incrementable.mk (62 : SizeT))
        = Basic.bne (Basic.mk (61 : SizeT) : Basic BasicTag SizeT)
            (Basic.mk (62 : SizeT)) ∧
      FullArithmetic.bne
          (FullArithmetic.mk (61 : SizeT) : FullArithmetic BasicTag SizeT)
          (FullArithmetic.mk (62 : SizeT))
        = Basic.bne (Basic.mk (61 : SizeT) : Basic BasicTag SizeT)
            (Basic.mk (62 : SizeT))) ∧
    (Incrementable.render
          (Incrementable.mk (61 : SizeT) : Incrementable BasicTag SizeT)
        = Basic.render (Basic.mk (61 : SizeT) : Basic BasicTag SizeT) ∧
      FullArithmetic.render
          (FullArithmetic.mk (61 : SizeT) : FullArithmetic BasicTag SizeT)
        = Basic.render (Basic.mk (61 : SizeT) : Basic BasicTag SizeT)) :=
  c10_tiers_agree BasicTag SizeT (61 : SizeT) (62 : SizeT)

end StrongIndex
